import Mathlib

/-!
Shallow embedding of the annotation-driven resolver pipeline of
`src/index.js` (the graphql-directives demo): JS runtime values, the
per-request execution context, the external-collaborator environment
(network retrieval, clock, date parsing), the seven directive wrappers
(`upper`, `date`, `rest`, `auth`, `length`, `addField`; the type-scoped
`uuid` rewriter touches no field wrapper relevant to the claims), and the
chain compiler that folds the transformers over a field's resolver in the
order the driver applies them (src/index.js lines 286-295).

Resolvers are embedded as functions
`parent -> args -> context -> environment -> (trace, argsAfter, result)`:
the trace records which wrappers ran (the source's console.log entry
lines), which network retrievals were performed, and whether the base
resolver was reached; `argsAfter` is the state of the caller's argument
object after the call, modelling in-place mutation of its top-level keys
(the `@rest` wrapper passes a shallow copy `\x7b ...args, post: data \x7d`
inward, so mutations of the copy do not reach the caller's object; the
`@addField` wrapper mutates the object it was given). Aliasing of nested
objects through the shallow copy is below the granularity of this model.
-/

/-- JavaScript runtime values as far as the pipeline inspects them:
`null`, `undefined`, booleans, (integral) numbers, strings, and plain
objects as ordered key/value lists. -/
inductive Value where
  | vNull
  | vUndefined
  | vBool (b : Bool)
  | vInt (n : Int)
  | vStr (s : String)
  | vObj (fields : List (String × Value))

/-- Errors a resolver chain can surface: `ApolloError(msg)` thrown by the
directive wrappers, a strict-mode `TypeError` (setting a property on a
non-object in `@addField`), and a network failure propagated from
`axios.get`. -/
inductive JsError where
  | apolloError (msg : String)
  | typeError (msg : String)
  | axiosError (msg : String)
deriving DecidableEq

/-- Observable events of one field resolution: a wrapper beginning to run
(the source's console.log at the top of each wrapper body), a network
retrieval from a URL (`axios.get`), and the base resolver being reached. -/
inductive Event where
  | enter (name : String)
  | fetch (url : String)
  | base
deriving DecidableEq

/-- The argument mapping `args`: a JS object, top-level keys only. -/
abbrev Args := List (String × Value)

/-- Per-request Execution Context: carries the caller's claimed role as
supplied by the transport layer. -/
structure Ctx where
  role : String

/-- External collaborators, specified at their interface boundary:
`fetch url` is the `axios.get(url).data` capability (a JSON document or a
network failure), `now` is the clock read by `new Date()`, and
`parseDateStr` is the JavaScript date-string parsing used by the
`dateformat` library (`none` for strings that yield an Invalid Date,
such as the empty string). -/
structure Env where
  fetch : String → Except JsError Value
  now : Int
  parseDateStr : String → Option Int

/-- A field resolver: from parent value, arguments, context and
environment to the event trace, the caller's argument object after the
call, and the result (a value or a thrown error). -/
abbrev Resolver := Value → Args → Ctx → Env → (List Event × Args × Except JsError Value)

/-- Look up a top-level key of a JS object / argument mapping. -/
def getKey (a : List (String × Value)) (k : String) : Option Value :=
  match a with
  | [] => none
  | (k1, v1) :: rest => if k1 = k then some v1 else getKey rest k

/-- JS property assignment on an object: overwrite the key in place if
present (insertion order kept), otherwise append it. -/
def setKey (a : List (String × Value)) (k : String) (v : Value) : List (String × Value) :=
  match a with
  | [] => [(k, v)]
  | (k1, v1) :: rest => if k1 = k then (k, v) :: rest else (k1, v1) :: setKey rest k v

/-- JavaScript truthiness of a value (the `!result` test of the `@date`
wrapper): `null`, `undefined`, `false`, `0` and the empty string are
falsy; everything else is truthy. -/
def truthy : Value → Bool
  | .vNull => false
  | .vUndefined => false
  | .vBool b => b
  | .vInt n => n != 0
  | .vStr s => !s.isEmpty
  | .vObj _ => true

/-- JavaScript date coercion at the `dateformat` library boundary
(`new Date(value)` on a non-Date argument): numbers are epoch
timestamps, booleans coerce to 0/1, `null` coerces to epoch 0,
`undefined` and plain objects are Invalid, and strings go through the
environment's date-string parser. -/
def jsToDate (env : Env) : Value → Option Int
  | .vNull => some 0
  | .vUndefined => none
  | .vBool b => some (if b then 1 else 0)
  | .vInt n => some n
  | .vStr s => env.parseDateStr s
  | .vObj _ => none

/-- Pure rendering step of the `dateformat` library: the text produced
for a given timestamp under a given mask. The exact character output is
irrelevant to the pipeline; the embedding keeps it abstract but
injective in the pair (timestamp, mask). -/
def dateFormatRender (d : Int) (mask : String) : String :=
  mask ++ "|" ++ toString d

/-- `@upper` wrapper (src/index.js lines 305-332): await the inner
resolver, upper-case a string result, pass anything else (and any
thrown error) through unchanged. -/
def upperWrap (inner : Resolver) : Resolver := fun p a c env =>
  let (t, a1, r) := inner p a c env
  (Event.enter "upper" :: t,
   a1,
   match r with
   | .ok (.vStr s) => .ok (.vStr s.toUpper)
   | other => other)

/-- `@date` wrapper (src/index.js lines 335-358): await the inner
resolver; a falsy result (`if (!result)`) is replaced by the current
time formatted in the directive's pattern; otherwise the result is
formatted, and a value the library cannot coerce to a date makes the
`try` block throw, caught and rethrown as `ApolloError("Invalid
Format!")`. An error thrown by the inner resolver propagates (the `try`
only guards the formatting calls). -/
def dateWrap (format : String) (inner : Resolver) : Resolver := fun p a c env =>
  let (t, a1, r) := inner p a c env
  (Event.enter "date" :: t,
   a1,
   match r with
   | .ok v =>
     if truthy v then
       match jsToDate env v with
       | some d => .ok (.vStr (dateFormatRender d format))
       | none => .error (.apolloError "Invalid Format!")
     else .ok (.vStr (dateFormatRender env.now format))
   | .error e => .error e)

/-- `@rest` wrapper (src/index.js lines 361-386): retrieve the JSON
document from the directive's URL (`axios.get`), then invoke the inner
resolver with a fresh shallow copy of `args` extended with the document
under the reserved key `"post"` (`\x7b ...args, post: data \x7d`). The
caller's own argument object is never written; a network failure
propagates with the inner resolver not invoked. -/
def restWrap (url : String) (inner : Resolver) : Resolver := fun p a c env =>
  match env.fetch url with
  | .error e => ([Event.enter "rest", Event.fetch url], a, .error e)
  | .ok data =>
    let (t, _, r) := inner p (setKey a "post" data) c env
    (Event.enter "rest" :: Event.fetch url :: t, a, r)

/-- `@auth` wrapper (src/index.js lines 389-409): `if (role !== 'ADMIN')
throw new ApolloError('Unauthorized!')` and otherwise call the inner
resolver. `role` is the directive's compile-time parameter; the
per-request context is received but never read. -/
def authWrap (role : String) (inner : Resolver) : Resolver := fun p a c env =>
  if role = "ADMIN" then
    let (t, a1, r) := inner p a c env
    (Event.enter "auth" :: t, a1, r)
  else
    ([Event.enter "auth"], a, .error (.apolloError "Unauthorized!"))

/-- Message of the minimum-length violation of the `@length` wrapper
(src/index.js line 449). -/
def minMsg (fieldName : String) (m : Int) : String :=
  "The field " ++ fieldName ++ " should contain at least " ++ toString m ++ " characters"

/-- Message of the maximum-length violation of the `@length` wrapper
(src/index.js line 454). -/
def maxMsg (fieldName : String) (m : Int) : String :=
  "The field " ++ fieldName ++ " shouldn\x27t exceed the max length (" ++ toString m ++ ")"

/-- Request-time checks of the `@length` wrapper on a resolved value:
`min`/`max` are tested only when declared (`!== undefined`) and only
against string results; string length is compared as in the source
(`result.length < min`, then `result.length > max`). -/
def lengthCheck (fieldName : String) (min? max? : Option Int) (v : Value) : Except JsError Value :=
  match v with
  | .vStr s =>
    match min? with
    | some m =>
      if (s.length : Int) < m then .error (.apolloError (minMsg fieldName m))
      else
        match max? with
        | some mx =>
          if (s.length : Int) > mx then .error (.apolloError (maxMsg fieldName mx))
          else .ok (.vStr s)
        | none => .ok (.vStr s)
    | none =>
      match max? with
      | some mx =>
        if (s.length : Int) > mx then .error (.apolloError (maxMsg fieldName mx))
        else .ok (.vStr s)
      | none => .ok (.vStr s)
  | other => .ok other

/-- `@length` wrapper (src/index.js lines 435-463): await the inner
resolver and apply the bounds checks to its result; thrown errors
propagate. -/
def lengthWrap (fieldName : String) (min? max? : Option Int) (inner : Resolver) : Resolver :=
  fun p a c env =>
    let (t, a1, r) := inner p a c env
    (Event.enter "length" :: t, a1, r.bind (lengthCheck fieldName min? max?))

/-- The compile step of the `@length` transformer: the source installs
the request-time wrapper unconditionally — it contains no validation of
the declared parameters and no failure path, so the compile step always
succeeds. -/
def lengthCompile (fieldName : String) (min? max? : Option Int) (r : Resolver) :
    Except JsError Resolver :=
  .ok (lengthWrap fieldName min? max? r)

/-- The nested `input` object of an argument mapping, when present
(`args.input` with an object value). -/
def inputObj (a : Args) : Option (List (String × Value)) :=
  match getKey a "input" with
  | some (.vObj fs) => some fs
  | _ => none

/-- `@addField` wrapper (src/index.js lines 466-491): before invoking
the inner resolver, execute `input.input[name] = value`, mutating the
nested input object in place (the caller's object, no copy). When
`args.input` is absent or not an object, the strict-mode assignment
throws a `TypeError` and the inner resolver is never invoked. -/
def addFieldWrap (name : String) (value : Int) (inner : Resolver) : Resolver := fun p a c env =>
  match inputObj a with
  | some fs =>
    let a1 := setKey a "input" (.vObj (setKey fs name (.vInt value)))
    let (t, a2, r) := inner p a1 c env
    (Event.enter "addField" :: t, a2, r)
  | none =>
    ([Event.enter "addField"], a, .error (.typeError "Cannot set properties of a non-object"))

/-- The directives attached to one field, with their compile-time
parameters as resolved by the schema (including declared defaults). The
schema text's attachment order is deliberately not recorded: the
compiler's application order is the driver's, not the annotation
order. -/
structure FieldDirectives where
  upper : Bool := false
  auth : Option String := none
  rest2 : Option String := none
  rest : Option String := none
  lengthParams : Option (Option Int × Option Int) := none
  date : Option String := none
  addField : Option (String × Int) := none

/-- A field with no attached directives. -/
def noDirectives : FieldDirectives := {}

/-- Per-field action of `upperDirectiveTransformer`: wrap when the
directive is attached, leave the resolver untouched otherwise. -/
def upperTransform (d : FieldDirectives) (r : Resolver) : Resolver :=
  if d.upper then upperWrap r else r

/-- Per-field action of `authDirectiveTransformer`. -/
def authTransform (d : FieldDirectives) (r : Resolver) : Resolver :=
  match d.auth with
  | some role => authWrap role r
  | none => r

/-- Per-field action of `restDirectiveTransformer` applied for the
directive name `rest2`. -/
def rest2Transform (d : FieldDirectives) (r : Resolver) : Resolver :=
  match d.rest2 with
  | some url => restWrap url r
  | none => r

/-- Per-field action of `restDirectiveTransformer` applied for the
directive name `rest`. -/
def restTransform (d : FieldDirectives) (r : Resolver) : Resolver :=
  match d.rest with
  | some url => restWrap url r
  | none => r

/-- Per-field action of `lengthDirectiveTransformer`. -/
def lengthTransform (fieldName : String) (d : FieldDirectives) (r : Resolver) : Resolver :=
  match d.lengthParams with
  | some (min?, max?) => lengthWrap fieldName min? max? r
  | none => r

/-- Per-field action of `dateDirectiveTransformer`. -/
def dateTransform (d : FieldDirectives) (r : Resolver) : Resolver :=
  match d.date with
  | some format => dateWrap format r
  | none => r

/-- Per-field action of `addFieldDirectiveTransformer`. -/
def addFieldTransform (d : FieldDirectives) (r : Resolver) : Resolver :=
  match d.addField with
  | some (name, value) => addFieldWrap name value r
  | none => r

/-- The chain compiler: fold the driver-supplied list of behaviors over
the field's current resolver, each behavior wrapping the resolver built
so far (the source's repeated `schema = transformer(schema, name)`
reassignments, a left fold). -/
def compileChain (behaviors : List (Resolver → Resolver)) (base : Resolver) : Resolver :=
  behaviors.foldl (fun r w => w r) base

/-- The driver's application order of src/index.js lines 286-295:
`rest2`, `rest`, `auth`, `upper`, `length`, `date`, `addField` (the
type-scoped `uuid` pass rewrites a whole type's field table and wraps no
field resolver, so it has no per-field action here). -/
def fieldBehaviors (fieldName : String) (d : FieldDirectives) : List (Resolver → Resolver) :=
  [rest2Transform d, restTransform d, authTransform d, upperTransform d,
   lengthTransform fieldName d, dateTransform d, addFieldTransform d]

/-- The compiled resolver of one field: the driver's behavior list
folded over the base resolver. -/
def compileField (fieldName : String) (d : FieldDirectives) (base : Resolver) : Resolver :=
  compileChain (fieldBehaviors fieldName d) base

/-- The base resolver of `Query.post` (src/index.js lines 258-265):
return `args.post`, the document injected by the `@rest` wrapper
(`undefined` when absent). -/
def postResolver : Resolver := fun _ a _ _ =>
  ([Event.base], a, .ok ((getKey a "post").getD .vUndefined))

/-- Fixture: the JSON document served by the demo endpoint. -/
def theDoc : Value := .vObj [("id", .vInt 1), ("title", .vStr "hello")]

/-- Fixture environment: every URL serves `theDoc`, the clock reads 0,
and no date string parses. -/
def demoEnv : Env :=
  { fetch := fun _ => .ok theDoc, now := 0, parseDateStr := fun _ => none }

/-- Fixture context of a caller whose transport-supplied role is GUEST. -/
def guestCtx : Ctx := ⟨"GUEST"⟩

/-- Writing a key and reading it back yields the written value. -/
theorem getKey_setKey (a : List (String × Value)) (k : String) (v : Value) :
    getKey (setKey a k v) k = some v := by
  induction a with
  | nil => simp [setKey, getKey]
  | cons kv rest ih =>
    by_cases h : kv.1 = k
    · simp [setKey, getKey, h]
    · simp [setKey, getKey, h, ih]

/-- Claim C8: a field with no attached annotations compiles to a
resolver observationally identical to its base resolver — every
transformer pass leaves the field untouched, so for every parent,
arguments, context and environment the compiled resolver produces
exactly the base resolver's trace, argument state and result. -/
theorem compileField_no_directives (fieldName : String) (base : Resolver)
    (p : Value) (a : Args) (c : Ctx) (env : Env) :
    compileField fieldName noDirectives base p a c env = base p a c env := rfl

/-- Claim C9: the authorization guard's accept/reject outcome is decided
by the directive's compile-time `role` parameter alone and never by the
Execution Context: for every context, a guard compiled with role
`"ADMIN"` proceeds to the inner resolver (prefixing its trace with the
guard's entry event), and a guard compiled with any other role returns
`ApolloError "Unauthorized!"` without invoking the inner resolver - in
particular any two invocations differing only in their contexts are
treated identically by the guard. -/
theorem authWrap_ignores_context (role : String) (inner : Resolver)
    (p : Value) (a : Args) (c : Ctx) (env : Env) :
    authWrap role inner p a c env =
      if role = "ADMIN" then
        (Event.enter "auth" :: (inner p a c env).1,
         (inner p a c env).2.1, (inner p a c env).2.2)
      else
        ([Event.enter "auth"], a, .error (.apolloError "Unauthorized!")) := by
  by_cases h : role = "ADMIN" <;> simp [authWrap, h]

/-- Claim C1 (divergence exhibit): the field `Query.post` compiled with
`@auth(role: "ADMIN")` outermost over `@rest(url: "U")`, invoked by a
caller whose Execution Context carries role GUEST, is NOT rejected: the
guard compares its compile-time parameter against the literal ADMIN and
never reads the caller's context, so the request enters the guard,
performs the network retrieval and runs the base resolver, returning the
fetched document with no AuthorizationError. -/
theorem authAdmin_guestCaller_reaches_inner :
    compileField "post" { auth := some "ADMIN", rest := some "U" } postResolver
        Value.vNull [] guestCtx demoEnv =
      ([Event.enter "auth", Event.enter "rest", Event.fetch "U", Event.base],
       [], .ok theDoc) := rfl

/-- Claim C10: the remote-enrichment wrapper never mutates the caller's
argument mapping: whatever the inner resolver does with the extended
shallow copy it receives, the argument object the caller passed in is
returned unchanged after the wrapper completes - in particular its
`post` key is exactly what it was before the call. -/
theorem restWrap_frame (url : String) (inner : Resolver)
    (p : Value) (a : Args) (c : Ctx) (env : Env) :
    (restWrap url inner p a c env).2.1 = a ∧
    getKey (restWrap url inner p a c env).2.1 "post" = getKey a "post" := by
  unfold restWrap
  cases env.fetch url <;> simp

/-- Fixture environment in which every retrieval fails. -/
def failEnv : Env :=
  { fetch := fun _ => .error (.axiosError "ECONNREFUSED"), now := 0,
    parseDateStr := fun _ => none }

/-- Fixture: a base resolver returning a constant value. -/
def constResolver (v : Value) : Resolver := fun _ a _ _ => ([Event.base], a, .ok v)

/-- Fixture directives: `@auth(role: "ADMIN")` and `@rest(url: "U")` on
one field, as on `Query.post`. -/
def dAdm : FieldDirectives := { auth := some "ADMIN", rest := some "U" }

/-- Fixture directives: `@auth(role: "GUEST")` and `@rest(url: "U")` on
one field (a guard the compiled check always rejects). -/
def dGst : FieldDirectives := { auth := some "GUEST", rest := some "U" }

/-- Claim C2: the chain compiler is a left fold, so the behavior applied
last by the driver becomes the outermost wrapper (first conjunct, for
every behavior list); at request time the outermost wrapper executes
first and the earlier-applied one together with the base resolver run
only if it decides to continue, and reordering the driver's list changes
the observed invocation order accordingly (remaining conjuncts: with the
auth behavior applied after the rest behavior the trace opens with the
guard, and a rejecting guard suppresses the retrieval entirely; with the
two behaviors reordered the retrieval happens first and the guard's
entry moves inward, firing even when the guard then rejects). The
annotation order of the schema text plays no part: a field's
`FieldDirectives` record no such order at all. -/
theorem compileChain_last_applied_outermost :
    (∀ (bs : List (Resolver → Resolver)) (w : Resolver → Resolver) (base : Resolver),
      compileChain (bs ++ [w]) base = w (compileChain bs base)) ∧
    (compileChain [restTransform dAdm, authTransform dAdm] postResolver
        Value.vNull [] guestCtx demoEnv =
      ([Event.enter "auth", Event.enter "rest", Event.fetch "U", Event.base],
       [], .ok theDoc)) ∧
    (compileChain [authTransform dAdm, restTransform dAdm] postResolver
        Value.vNull [] guestCtx demoEnv =
      ([Event.enter "rest", Event.fetch "U", Event.enter "auth", Event.base],
       [], .ok theDoc)) ∧
    (compileChain [restTransform dGst, authTransform dGst] postResolver
        Value.vNull [] guestCtx demoEnv =
      ([Event.enter "auth"], [], .error (.apolloError "Unauthorized!"))) ∧
    (compileChain [authTransform dGst, restTransform dGst] postResolver
        Value.vNull [] guestCtx demoEnv =
      ([Event.enter "rest", Event.fetch "U", Event.enter "auth"],
       [], .error (.apolloError "Unauthorized!"))) := by
  refine ⟨?_, rfl, rfl, rfl, rfl⟩
  intro bs w base
  simp [compileChain, List.foldl_append]

/-- Claim C6: the field compiled with the chain
`[auth(role=ADMIN), rest(url=u)]` — the guard outermost — on an
invocation by a caller with role ADMIN performs exactly one retrieval
from `u`; the retrieved document is threaded to the base resolver under
the reserved key `post` before it runs (the base resolver of
`Query.post` returns `args.post`, so the field resolves to the
document, with the retrieval event strictly before the base event); and
a failing retrieval propagates as the field's failure, with one
attempt, no retry and no default. -/
theorem authRest_chain_end_to_end (u : String) (doc : Value) (er : JsError)
    (envOk envErr : Env) (p : Value) (a : Args) (c : Ctx)
    (hOk : envOk.fetch u = .ok doc) (hErr : envErr.fetch u = .error er) :
    (compileField "post" { auth := some "ADMIN", rest := some u } postResolver p a c envOk =
      ([Event.enter "auth", Event.enter "rest", Event.fetch u, Event.base], a, .ok doc)) ∧
    ((compileField "post" { auth := some "ADMIN", rest := some u } postResolver
        p a c envOk).1.count (Event.fetch u) = 1) ∧
    (compileField "post" { auth := some "ADMIN", rest := some u } postResolver p a c envErr =
      ([Event.enter "auth", Event.enter "rest", Event.fetch u], a, .error er)) := by
  refine ⟨?_, ?_, ?_⟩ <;>
    simp [compileField, compileChain, fieldBehaviors, rest2Transform, restTransform,
          authTransform, upperTransform, lengthTransform, dateTransform, addFieldTransform,
          authWrap, restWrap, postResolver, hOk, hErr, getKey_setKey, List.count_cons]

/-- Claim C6 witness: the chain on `Query.post` evaluated in the fixture
environments. -/
theorem authRest_chain_end_to_end_witness :
    demoEnv.fetch "U" = .ok theDoc ∧
    failEnv.fetch "U" = .error (.axiosError "ECONNREFUSED") ∧
    (compileField "post" { auth := some "ADMIN", rest := some "U" } postResolver
        Value.vNull [] guestCtx demoEnv =
      ([Event.enter "auth", Event.enter "rest", Event.fetch "U", Event.base],
       [], .ok theDoc)) :=
  ⟨rfl, rfl,
    (authRest_chain_end_to_end "U" theDoc (.axiosError "ECONNREFUSED")
      demoEnv failEnv Value.vNull [] guestCtx rfl rfl).1⟩

/-- Claim C7: request-time behavior of the length validator — a textual
inner result of length 9 under `min: 10` fails with the validation
error naming the field and the minimum; a textual result of length 10
under `min: 10` is returned unchanged; a textual result longer than a
declared `max` fails with the validation error naming the field and the
maximum; and a non-textual (in particular missing: null or undefined)
inner result passes through with no check at all. -/
theorem lengthWrap_bounds (fieldName : String) (inner : Resolver)
    (p : Value) (a : Args) (c : Ctx) (env : Env) (t : List Event) (a1 : Args) :
    (∀ s : String, inner p a c env = (t, a1, .ok (.vStr s)) → s.length = 9 →
      lengthWrap fieldName (some 10) none inner p a c env =
        (Event.enter "length" :: t, a1, .error (.apolloError (minMsg fieldName 10)))) ∧
    (∀ s : String, inner p a c env = (t, a1, .ok (.vStr s)) → s.length = 10 →
      lengthWrap fieldName (some 10) none inner p a c env =
        (Event.enter "length" :: t, a1, .ok (.vStr s))) ∧
    (∀ (s : String) (mx : Int), inner p a c env = (t, a1, .ok (.vStr s)) →
      (s.length : Int) > mx →
      lengthWrap fieldName none (some mx) inner p a c env =
        (Event.enter "length" :: t, a1, .error (.apolloError (maxMsg fieldName mx)))) ∧
    (∀ (v : Value) (min? max? : Option Int), inner p a c env = (t, a1, .ok v) →
      (∀ s : String, v ≠ .vStr s) →
      lengthWrap fieldName min? max? inner p a c env =
        (Event.enter "length" :: t, a1, .ok v)) := by
  refine ⟨?_, ?_, ?_, ?_⟩
  · intro s hs h9
    simp [lengthWrap, hs, lengthCheck, Except.bind, h9]
  · intro s hs h10
    simp [lengthWrap, hs, lengthCheck, Except.bind, h10]
  · intro s mx hs hgt
    have hnlt : ¬ ((s.length : Int) ≤ mx) := by omega
    simp [lengthWrap, hs, lengthCheck, Except.bind, hgt, hnlt]
  · intro v min? max? hv hns
    cases v with
    | vStr s => exact absurd rfl (hns s)
    | vNull => simp [lengthWrap, hv, lengthCheck, Except.bind]
    | vUndefined => simp [lengthWrap, hv, lengthCheck, Except.bind]
    | vBool b => simp [lengthWrap, hv, lengthCheck, Except.bind]
    | vInt n => simp [lengthWrap, hv, lengthCheck, Except.bind]
    | vObj fs => simp [lengthWrap, hv, lengthCheck, Except.bind]

/-- Claim C7 witness: the four length-validator behaviors at concrete
inputs (`"lorem ipso"` has 10 characters, `"wayfarer!"` has 9). -/
theorem lengthWrap_bounds_witness :
    constResolver (.vStr "wayfarer!") Value.vNull [] guestCtx demoEnv =
      ([Event.base], [], .ok (.vStr "wayfarer!")) ∧
    String.length "wayfarer!" = 9 ∧
    (lengthWrap "body" (some 10) none (constResolver (.vStr "wayfarer!"))
        Value.vNull [] guestCtx demoEnv =
      ([Event.enter "length", Event.base], [],
       .error (.apolloError (minMsg "body" 10)))) ∧
    (lengthWrap "body" (some 10) none (constResolver (.vStr "lorem ipso"))
        Value.vNull [] guestCtx demoEnv =
      ([Event.enter "length", Event.base], [], .ok (.vStr "lorem ipso"))) ∧
    (lengthWrap "body" none (some 3) (constResolver (.vStr "wayfarer!"))
        Value.vNull [] guestCtx demoEnv =
      ([Event.enter "length", Event.base], [],
       .error (.apolloError (maxMsg "body" 3)))) ∧
    (lengthWrap "body" (some 10) (some 3) (constResolver (.vInt 7))
        Value.vNull [] guestCtx demoEnv =
      ([Event.enter "length", Event.base], [], .ok (.vInt 7))) :=
  ⟨rfl, rfl,
   (lengthWrap_bounds "body" (constResolver (.vStr "wayfarer!"))
      Value.vNull [] guestCtx demoEnv [Event.base] []).1 "wayfarer!" rfl rfl,
   (lengthWrap_bounds "body" (constResolver (.vStr "lorem ipso"))
      Value.vNull [] guestCtx demoEnv [Event.base] []).2.1 "lorem ipso" rfl rfl,
   (lengthWrap_bounds "body" (constResolver (.vStr "wayfarer!"))
      Value.vNull [] guestCtx demoEnv [Event.base] []).2.2.1 "wayfarer!" 3 rfl (by decide),
   (lengthWrap_bounds "body" (constResolver (.vInt 7))
      Value.vNull [] guestCtx demoEnv [Event.base] []).2.2.2 (.vInt 7) (some 10) (some 3)
      rfl (fun s h => Value.noConfusion h)⟩

/-- Claim C4 counterexample: the length transformer performs no
compile-time validation at all — with `min: 10, max: 5` (so
`max < min`) the compile step succeeds, the wrapper is installed, and a
request IS resolved against the contradictory annotation (here failing
the minimum check at request time), contradicting both "compilation
fails when max < min" and "no request is ever resolved against such an
annotation". -/
theorem lengthCompile_accepts_max_lt_min :
    (lengthCompile "body" (some 10) (some 5) (constResolver (.vStr "hello"))).isOk = true ∧
    compileField "body" { lengthParams := some (some 10, some 5) }
        (constResolver (.vStr "hello")) Value.vNull [] guestCtx demoEnv =
      ([Event.enter "length", Event.base], [],
       .error (.apolloError (minMsg "body" 10))) := ⟨rfl, rfl⟩

/-- Claim C4 amended: the source never checks `max >= min` — the
compile step of the length transformer succeeds for every `max < min`
and installs the request-time wrapper; requests are then served against
the contradictory annotation, and every textual inner result fails one
of the two bounds checks at request time (below the minimum, or
otherwise necessarily above the maximum). -/
theorem lengthCompile_never_fails (m mx : Int) (hlt : mx < m)
    (fieldName : String) (r : Resolver) (p : Value) (a : Args) (c : Ctx) (env : Env)
    (t : List Event) (a1 : Args) :
    (lengthCompile fieldName (some m) (some mx) r).isOk = true ∧
    (∀ s : String, r p a c env = (t, a1, .ok (.vStr s)) →
      ∃ msg, lengthWrap fieldName (some m) (some mx) r p a c env =
        (Event.enter "length" :: t, a1, .error (.apolloError msg))) := by
  refine ⟨rfl, ?_⟩
  intro s hr
  by_cases hmin : (s.length : Int) < m
  · exact ⟨minMsg fieldName m, by simp [lengthWrap, hr, lengthCheck, Except.bind, hmin]⟩
  · have hmax : ¬ ((s.length : Int) ≤ mx) := by omega
    exact ⟨maxMsg fieldName mx,
      by simp [lengthWrap, hr, lengthCheck, Except.bind, hmin, hmax]⟩

/-- Claim C4 amended witness: `min: 10, max: 5` compiles and a
five-character result is rejected at request time. -/
theorem lengthCompile_never_fails_witness :
    (5 : Int) < 10 ∧
    (lengthCompile "body" (some 10) (some 5) (constResolver (.vStr "hello"))).isOk = true ∧
    (∃ msg, lengthWrap "body" (some 10) (some 5) (constResolver (.vStr "hello"))
        Value.vNull [] guestCtx demoEnv =
      (Event.enter "length" :: [Event.base], [], .error (.apolloError msg))) := by
  have h := lengthCompile_never_fails 10 5 (by norm_num) "body"
    (constResolver (.vStr "hello")) Value.vNull [] guestCtx demoEnv [Event.base] []
  exact ⟨by norm_num, h.1, h.2 "hello" rfl⟩

/-- Claim C3 counterexample: an empty-string inner result is present
(neither null nor undefined) and unparsable as a date (the environment
parses no date string), yet the date wrapper does not fail with the
formatting error — the source tests JS falsiness (`if (!result)`), the
empty string is falsy, and the wrapper returns the current time
formatted in the pattern instead. -/
theorem dateWrap_emptyString_no_FormatError :
    truthy (Value.vStr "") = false ∧
    Value.vStr "" ≠ Value.vNull ∧
    Value.vStr "" ≠ Value.vUndefined ∧
    jsToDate demoEnv (Value.vStr "") = none ∧
    dateWrap "isoDateTime" (constResolver (.vStr "")) Value.vNull [] guestCtx demoEnv =
      ([Event.enter "date", Event.base], [],
       .ok (.vStr (dateFormatRender demoEnv.now "isoDateTime"))) :=
  ⟨rfl, fun h => Value.noConfusion h, fun h => Value.noConfusion h, rfl, rfl⟩

/-- Claim C3 amended: the date wrapper's absence test is JS falsiness —
an inner result that is null, undefined, false, 0 or the empty string is
replaced by the current time formatted in the pattern; a truthy result
the library can coerce to a date is returned formatted in the pattern;
and only a truthy result that cannot be coerced fails with the
formatting error. -/
theorem dateWrap_falsy_policy (format : String) (inner : Resolver)
    (p : Value) (a : Args) (c : Ctx) (env : Env) (t : List Event) (a1 : Args) (v : Value)
    (hv : inner p a c env = (t, a1, .ok v)) :
    (truthy v = false →
      dateWrap format inner p a c env =
        (Event.enter "date" :: t, a1, .ok (.vStr (dateFormatRender env.now format)))) ∧
    (∀ d : Int, truthy v = true → jsToDate env v = some d →
      dateWrap format inner p a c env =
        (Event.enter "date" :: t, a1, .ok (.vStr (dateFormatRender d format)))) ∧
    (truthy v = true → jsToDate env v = none →
      dateWrap format inner p a c env =
        (Event.enter "date" :: t, a1, .error (.apolloError "Invalid Format!"))) := by
  refine ⟨?_, ?_, ?_⟩
  · intro hf
    simp [dateWrap, hv, hf]
  · intro d ht hd
    simp [dateWrap, hv, ht, hd]
  · intro ht hd
    simp [dateWrap, hv, ht, hd]

/-- Claim C3 amended witness: the three branches at concrete inputs — a
null result formats the clock, the timestamp 5 formats itself, and a
(truthy) object result fails with the formatting error. -/
theorem dateWrap_falsy_policy_witness :
    truthy Value.vNull = false ∧
    (dateWrap "mm/dd/yyyy" (constResolver .vNull) Value.vNull [] guestCtx demoEnv =
      ([Event.enter "date", Event.base], [],
       .ok (.vStr (dateFormatRender demoEnv.now "mm/dd/yyyy")))) ∧
    truthy (Value.vInt 5) = true ∧
    jsToDate demoEnv (Value.vInt 5) = some 5 ∧
    (dateWrap "mm/dd/yyyy" (constResolver (.vInt 5)) Value.vNull [] guestCtx demoEnv =
      ([Event.enter "date", Event.base], [],
       .ok (.vStr (dateFormatRender 5 "mm/dd/yyyy")))) ∧
    truthy (Value.vObj []) = true ∧
    jsToDate demoEnv (Value.vObj []) = none ∧
    (dateWrap "mm/dd/yyyy" (constResolver (.vObj [])) Value.vNull [] guestCtx demoEnv =
      ([Event.enter "date", Event.base], [],
       .error (.apolloError "Invalid Format!"))) :=
  ⟨rfl,
   (dateWrap_falsy_policy "mm/dd/yyyy" (constResolver .vNull)
      Value.vNull [] guestCtx demoEnv [Event.base] [] .vNull rfl).1 rfl,
   rfl, rfl,
   (dateWrap_falsy_policy "mm/dd/yyyy" (constResolver (.vInt 5))
      Value.vNull [] guestCtx demoEnv [Event.base] [] (.vInt 5) rfl).2.1 5 rfl rfl,
   rfl, rfl,
   (dateWrap_falsy_policy "mm/dd/yyyy" (constResolver (.vObj []))
      Value.vNull [] guestCtx demoEnv [Event.base] [] (.vObj []) rfl).2.2 rfl rfl⟩

/-- Claim C5: the argument-injection wrapper — when the argument mapping
carries a nested `input` object, the wrapper sets `input[name] = value`
in that object before invoking the inner resolver, which then runs on
the mutated mapping (the mutated object is exactly what reading `input`
back yields, third conjunct) and whose outcome, trace and argument
mutations become the field's; when the nested `input` object is absent,
the wrapper fails with the argument-shape failure (the strict-mode
`TypeError` of the assignment) and the inner resolver is never
invoked. -/
theorem addFieldWrap_input_shape (name : String) (value : Int) (inner : Resolver)
    (p : Value) (a : Args) (c : Ctx) (env : Env) :
    (∀ fs, inputObj a = some fs →
      addFieldWrap name value inner p a c env =
        (Event.enter "addField" ::
          (inner p (setKey a "input" (.vObj (setKey fs name (.vInt value)))) c env).1,
         (inner p (setKey a "input" (.vObj (setKey fs name (.vInt value)))) c env).2.1,
         (inner p (setKey a "input" (.vObj (setKey fs name (.vInt value)))) c env).2.2)) ∧
    (inputObj a = none →
      addFieldWrap name value inner p a c env =
        ([Event.enter "addField"], a,
         .error (.typeError "Cannot set properties of a non-object"))) ∧
    (∀ fs, inputObj a = some fs →
      getKey (setKey a "input" (.vObj (setKey fs name (.vInt value)))) "input" =
        some (.vObj (setKey fs name (.vInt value)))) := by
  refine ⟨?_, ?_, ?_⟩
  · intro fs hfs
    simp [addFieldWrap, hfs]
  · intro hnone
    simp [addFieldWrap, hnone]
  · intro fs hfs
    exact getKey_setKey a "input" (.vObj (setKey fs name (.vInt value)))

/-- Claim C5 witness: the mutation's demo parameters
(`@addField(name: "age", value: 101)` on `Mutation.updateUser`) applied
to an argument mapping with a nested input object, and to one
without. -/
theorem addFieldWrap_input_shape_witness :
    inputObj [("input", Value.vObj [("id", Value.vStr "1")])] =
      some [("id", Value.vStr "1")] ∧
    (addFieldWrap "age" 101 (constResolver .vNull)
        Value.vNull [("input", Value.vObj [("id", Value.vStr "1")])] guestCtx demoEnv =
      (Event.enter "addField" ::
        (constResolver .vNull Value.vNull
          (setKey [("input", Value.vObj [("id", Value.vStr "1")])] "input"
            (.vObj (setKey [("id", Value.vStr "1")] "age" (.vInt 101)))) guestCtx demoEnv).1,
       (constResolver .vNull Value.vNull
          (setKey [("input", Value.vObj [("id", Value.vStr "1")])] "input"
            (.vObj (setKey [("id", Value.vStr "1")] "age" (.vInt 101)))) guestCtx demoEnv).2.1,
       (constResolver .vNull Value.vNull
          (setKey [("input", Value.vObj [("id", Value.vStr "1")])] "input"
            (.vObj (setKey [("id", Value.vStr "1")] "age" (.vInt 101)))) guestCtx demoEnv).2.2)) ∧
    inputObj [("id", Value.vStr "1")] = none ∧
    (addFieldWrap "age" 101 (constResolver .vNull)
        Value.vNull [("id", Value.vStr "1")] guestCtx demoEnv =
      ([Event.enter "addField"], [("id", Value.vStr "1")],
       .error (.typeError "Cannot set properties of a non-object"))) :=
  ⟨rfl,
   (addFieldWrap_input_shape "age" 101 (constResolver .vNull)
      Value.vNull [("input", Value.vObj [("id", Value.vStr "1")])] guestCtx demoEnv).1
      [("id", Value.vStr "1")] rfl,
   rfl,
   (addFieldWrap_input_shape "age" 101 (constResolver .vNull)
      Value.vNull [("id", Value.vStr "1")] guestCtx demoEnv).2.1 rfl⟩
